import Mathlib

/-!
Verification of the PsiCare patient-records application (kind-soul-notes).

The development shallowly embeds:
* the three tables and their row shapes from the migration
  `supabase/migrations/20251216152534_*.sql`;
* the eleven row-level-security (RLS) policies of that migration, each
  predicate transcribed from its `USING` / `WITH CHECK` clause;
* the database queries issued by the page components
  (`Dashboard.tsx`, `Patients` page, `NewPatient.tsx`, `PatientDetail.tsx`);
* the client-side search filter of the Patients page;
* the `handleSubmit` insert logic of `NewPatient.tsx`;
* the `handle_new_user` signup trigger.
-/

namespace PsiCare

/-- Authenticated identities (`auth.uid()` values, user ids) as naturals. -/
abbrev UserId := Nat

/-- The three tables created by the migration. -/
inductive Table
  | profiles
  | patients
  | patientRecords
deriving DecidableEq, Repr

/-- The four SQL command kinds RLS policies can cover. -/
inductive Cmd
  | select
  | insert
  | update
  | delete
deriving DecidableEq, Repr

/-- A row of `public.profiles` (timestamps omitted). -/
structure ProfileRow where
  id : UserId
  full_name : String
  crp : Option String
  phone : Option String
deriving DecidableEq, Repr

/-- A row of `public.patients` (timestamps omitted). -/
structure PatientRow where
  id : Nat
  psychologist_id : UserId
  full_name : String
  email : Option String
  phone : Option String
  birth_date : Option String
  cpf : Option String
  address : Option String
  emergency_contact : Option String
  emergency_phone : Option String
  notes : Option String
  status : String
deriving DecidableEq, Repr

/-- A row of `public.patient_records` (timestamps omitted). -/
structure PatientRecordRow where
  id : Nat
  patient_id : Nat
  psychologist_id : UserId
  session_date : String
  session_type : String
  main_complaint : Option String
  session_notes : Option String
  observations : Option String
  next_session_goals : Option String
  mood_state : Option String
  interventions : Option String
deriving DecidableEq, Repr

/-- A row of any of the three tables. -/
inductive Row
  | profile (r : ProfileRow)
  | patient (r : PatientRow)
  | record (r : PatientRecordRow)
deriving DecidableEq, Repr

/-- The table a row belongs to. -/
def Row.table : Row → Table
  | .profile _ => .profiles
  | .patient _ => .patients
  | .record _ => .patientRecords

/-- The ownership column of each table: `profiles.id` for a profile,
`psychologist_id` for patients and patient records. -/
def Row.ownerId : Row → UserId
  | .profile r => r.id
  | .patient r => r.psychologist_id
  | .record r => r.psychologist_id

/-- One RLS policy: its name, table, command, and the predicate transcribed
from its `USING` / `WITH CHECK` clause (`uid` stands for `auth.uid()`;
the predicate is false on rows of other tables, which it never sees). -/
structure Policy where
  name : String
  table : Table
  cmd : Cmd
  pred : UserId → Row → Bool

/-- The eleven RLS policies of the migration, in source order.
`profiles` has SELECT, UPDATE and INSERT policies only; `patients` and
`patient_records` each have all four commands. -/
def policies : List Policy :=
  [ ⟨"Users can view own profile", .profiles, .select,
      fun uid r => match r with | .profile p => uid == p.id | _ => false⟩,
    ⟨"Users can update own profile", .profiles, .update,
      fun uid r => match r with | .profile p => uid == p.id | _ => false⟩,
    ⟨"Users can insert own profile", .profiles, .insert,
      fun uid r => match r with | .profile p => uid == p.id | _ => false⟩,
    ⟨"Psychologists can view own patients", .patients, .select,
      fun uid r => match r with | .patient p => uid == p.psychologist_id | _ => false⟩,
    ⟨"Psychologists can insert own patients", .patients, .insert,
      fun uid r => match r with | .patient p => uid == p.psychologist_id | _ => false⟩,
    ⟨"Psychologists can update own patients", .patients, .update,
      fun uid r => match r with | .patient p => uid == p.psychologist_id | _ => false⟩,
    ⟨"Psychologists can delete own patients", .patients, .delete,
      fun uid r => match r with | .patient p => uid == p.psychologist_id | _ => false⟩,
    ⟨"Psychologists can view own records", .patientRecords, .select,
      fun uid r => match r with | .record p => uid == p.psychologist_id | _ => false⟩,
    ⟨"Psychologists can insert own records", .patientRecords, .insert,
      fun uid r => match r with | .record p => uid == p.psychologist_id | _ => false⟩,
    ⟨"Psychologists can update own records", .patientRecords, .update,
      fun uid r => match r with | .record p => uid == p.psychologist_id | _ => false⟩,
    ⟨"Psychologists can delete own records", .patientRecords, .delete,
      fun uid r => match r with | .record p => uid == p.psychologist_id | _ => false⟩ ]

/-- RLS semantics with permissive policies: since RLS is enabled on all three
tables, user `uid` may perform command `c` on row `r` iff some policy for
`r`'s table and `c` has a true predicate (default deny). -/
def allowed (uid : UserId) (c : Cmd) (r : Row) : Bool :=
  policies.any fun p => p.table == r.table && p.cmd == c && p.pred uid r

/-- Whether the migration declares a policy for table `t` and command `c`. -/
def hasPolicy (t : Table) (c : Cmd) : Bool :=
  policies.any fun p => p.table == t && p.cmd == c

/-- Columns that page components filter on in `.eq(...)` calls. -/
inductive Col
  | id
  | psychologist_id
  | patient_id
  | status
deriving DecidableEq, Repr

/-- One read query issued by a page component: the component and call site,
the table it targets, and the columns its `.eq(...)` filters constrain. -/
structure ReadQuery where
  site : String
  table : Table
  filterCols : List Col
deriving DecidableEq, Repr

/-- Every read query issued by the page components, in source order:
four in `fetchDashboardData` (Dashboard.tsx), one in `fetchPatients`
(Patients page), and the two of `fetchPatientData` (PatientDetail.tsx). -/
def pageReadQueries : List ReadQuery :=
  [ ⟨"Dashboard.fetchDashboardData recent patients", .patients, []⟩,
    ⟨"Dashboard.fetchDashboardData totalPatients count", .patients, []⟩,
    ⟨"Dashboard.fetchDashboardData activePatients count", .patients, [.status]⟩,
    ⟨"Dashboard.fetchDashboardData totalRecords count", .patientRecords, []⟩,
    ⟨"Patients.fetchPatients", .patients, []⟩,
    ⟨"PatientDetail.fetchPatientData patient", .patients, [.id]⟩,
    ⟨"PatientDetail.fetchPatientData records", .patientRecords, [.patient_id]⟩ ]

/-- One database operation issued by a page component: its site, the table
it targets and the command kind. -/
structure AppOp where
  site : String
  table : Table
  cmd : Cmd
deriving DecidableEq, Repr

/-- Every database operation issued by the page components, in source order.
Besides the seven read queries there are exactly two inserts:
`NewPatient.handleSubmit` into `patients` and `PatientDetail.handleCreateRecord`
into `patient_records`. No page component issues an update or a delete. -/
def appOperations : List AppOp :=
  [ ⟨"Dashboard.fetchDashboardData recent patients", .patients, .select⟩,
    ⟨"Dashboard.fetchDashboardData totalPatients count", .patients, .select⟩,
    ⟨"Dashboard.fetchDashboardData activePatients count", .patients, .select⟩,
    ⟨"Dashboard.fetchDashboardData totalRecords count", .patientRecords, .select⟩,
    ⟨"Patients.fetchPatients", .patients, .select⟩,
    ⟨"NewPatient.handleSubmit", .patients, .insert⟩,
    ⟨"PatientDetail.fetchPatientData patient", .patients, .select⟩,
    ⟨"PatientDetail.fetchPatientData records", .patientRecords, .select⟩,
    ⟨"PatientDetail.handleCreateRecord", .patientRecords, .insert⟩ ]

/-- Whether some page component issues command `c` against table `t`. -/
def appHasOp (t : Table) (c : Cmd) : Bool :=
  appOperations.any fun op => op.table == t && op.cmd == c

/-- The rows of a table state that a SELECT by user `uid` can return once
RLS is applied: exactly those the SELECT policies allow. -/
def selectVisible (uid : UserId) (rows : List Row) : List Row :=
  rows.filter fun r => allowed uid .select r

/-! ### Patients page search filter -/

/-- JavaScript `haystack.includes(needle)` on character lists: true iff
`needle` occurs as a contiguous substring of `haystack` (always true for
the empty needle). -/
def jsIncludes (needle : List Char) : List Char → Bool
  | [] => needle.isEmpty
  | c :: t => needle.isPrefixOf (c :: t) || jsIncludes needle t

/-- `hay.includes(needle)` on strings. -/
def strIncludes (hay needle : String) : Bool :=
  jsIncludes needle.toList hay.toList

/-- JavaScript `s.toLowerCase()`. -/
def lowerStr (s : String) : String :=
  ⟨s.toList.map Char.toLower⟩

/-- The predicate of the Patients page search effect, transcribed from
`patients.filter(...)`: the name and email comparisons lower-case both
sides, the phone comparison does not; a `null` email or phone makes its
disjunct false (JS optional chaining yields `undefined`). -/
def matchesSearch (searchTerm : String) (p : PatientRow) : Bool :=
  strIncludes (lowerStr p.full_name) (lowerStr searchTerm)
  || (match p.email with
      | some e => strIncludes (lowerStr e) (lowerStr searchTerm)
      | none => false)
  || (match p.phone with
      | some ph => strIncludes ph searchTerm
      | none => false)

/-- The filtered list the Patients page shows for a search term. -/
def filteredPatients (searchTerm : String) (patients : List PatientRow) :
    List PatientRow :=
  patients.filter (matchesSearch searchTerm)

/-! ### NewPatient form submission -/

/-- The `formData` state of `NewPatient.tsx`: every field is a string
(all initially empty except `status`, initially `"active"`). -/
structure PatientForm where
  full_name : String
  email : String
  phone : String
  birth_date : String
  cpf : String
  address : String
  emergency_contact : String
  emergency_phone : String
  notes : String
  status : String
deriving DecidableEq, Repr

/-- The row payload of the `supabase.from('patients').insert({...})` call. -/
structure PatientInsert where
  psychologist_id : UserId
  full_name : String
  email : Option String
  phone : Option String
  birth_date : Option String
  cpf : Option String
  address : Option String
  emergency_contact : Option String
  emergency_phone : Option String
  notes : Option String
  status : String
deriving DecidableEq, Repr

/-- JavaScript `x || null` on a string: `null` when the string is empty
(falsy), the string itself otherwise. -/
def orNull (s : String) : Option String :=
  if s = "" then none else some s

/-- JavaScript `s.trim()`: the string without leading and trailing
whitespace. -/
def jsTrim (s : String) : String :=
  ⟨((s.toList.dropWhile Char.isWhitespace).reverse.dropWhile
      Char.isWhitespace).reverse⟩

/-- `NewPatient.handleSubmit` for an authenticated user `uid`: when the
trimmed name is empty (falsy) it shows a destructive toast and returns
without touching the database (`none`); otherwise it attempts the insert
with the trimmed name and each optional field passed through `|| null`. -/
def handleSubmit (uid : UserId) (formData : PatientForm) : Option PatientInsert :=
  if jsTrim formData.full_name = "" then
    none
  else
    some
      { psychologist_id := uid
        full_name := jsTrim formData.full_name
        email := orNull formData.email
        phone := orNull formData.phone
        birth_date := orNull formData.birth_date
        cpf := orNull formData.cpf
        address := orNull formData.address
        emergency_contact := orNull formData.emergency_contact
        emergency_phone := orNull formData.emergency_phone
        notes := orNull formData.notes
        status := formData.status }

/-! ### Signup trigger -/

/-- A row of `auth.users` as seen by the trigger: its id and the
`full_name` field of `raw_user_meta_data` (`none` when absent). -/
structure AuthUser where
  id : UserId
  meta_full_name : Option String
deriving DecidableEq, Repr

/-- A profile row as written by the trigger (only the columns it sets). -/
structure Profile where
  id : UserId
  full_name : String
deriving DecidableEq, Repr

/-- The auth-and-profiles database state. -/
structure AuthDb where
  users : List AuthUser
  profiles : List Profile
deriving DecidableEq, Repr

/-- `public.handle_new_user()`: inserts `(NEW.id, COALESCE(NEW.raw_user_meta_data
->> 'full_name', 'Psicólogo(a)'))` into `public.profiles`. -/
def handle_new_user (newRow : AuthUser) (db : AuthDb) : AuthDb :=
  { db with profiles :=
      { id := newRow.id
        full_name := newRow.meta_full_name.getD "Psicólogo(a)" } :: db.profiles }

/-- Insert into `auth.users`, after which the `on_auth_user_created` trigger
fires `handle_new_user` for the new row. -/
def insertAuthUser (u : AuthUser) (db : AuthDb) : AuthDb :=
  handle_new_user u { db with users := u :: db.users }

/-! ### Sample data for witnesses -/

/-- A sample patient row owned by user 1. -/
def samplePatient : PatientRow :=
  { id := 10, psychologist_id := 1, full_name := "Ana Souza",
    email := some "ana@example.com", phone := some "11999990000",
    birth_date := none, cpf := none, address := none,
    emergency_contact := none, emergency_phone := none, notes := none,
    status := "active" }

/-- A sample session record owned by user 1. -/
def sampleRecord : PatientRecordRow :=
  { id := 20, patient_id := 10, psychologist_id := 1,
    session_date := "2025-12-16", session_type := "individual",
    main_complaint := none, session_notes := none, observations := none,
    next_session_goals := none, mood_state := none, interventions := none }

/-! ### Lemmas about the RLS policies -/

/-- Any command on a `patients` row is allowed exactly for its owner. -/
theorem allowed_patient_iff (u : UserId) (c : Cmd) (pa : PatientRow) :
    allowed u c (Row.patient pa) = true ↔ u = pa.psychologist_id := by
  cases c <;> simp [allowed, policies, Row.table]

/-- Any command on a `patient_records` row is allowed exactly for its owner. -/
theorem allowed_record_iff (u : UserId) (c : Cmd) (re : PatientRecordRow) :
    allowed u c (Row.record re) = true ↔ u = re.psychologist_id := by
  cases c <;> simp [allowed, policies, Row.table]

/-- A command on a `profiles` row is allowed exactly for its owner, and only
for SELECT, INSERT and UPDATE: no DELETE policy exists on `profiles`. -/
theorem allowed_profile_iff (u : UserId) (c : Cmd) (pr : ProfileRow) :
    allowed u c (Row.profile pr) = true ↔ (u = pr.id ∧ c ≠ Cmd.delete) := by
  cases c <;> simp [allowed, policies, Row.table]

/-- A sample profile row owned by user 1. -/
def sampleProfile : ProfileRow :=
  { id := 1, full_name := "Dra. Silva", crp := some "06/12345", phone := none }

/-- C1: under the RLS policies, a user may SELECT, INSERT, UPDATE or DELETE a
`patients` or `patient_records` row exactly when the row's `psychologist_id`
equals the user's identity; consequently two distinct clinicians can never
both access (read or affect) the same such row. -/
theorem c1_patient_data_isolated_by_owner :
    (∀ (u : UserId) (c : Cmd) (pa : PatientRow),
        allowed u c (Row.patient pa) = true ↔ u = pa.psychologist_id) ∧
    (∀ (u : UserId) (c : Cmd) (re : PatientRecordRow),
        allowed u c (Row.record re) = true ↔ u = re.psychologist_id) ∧
    (∀ (u v : UserId) (c c' : Cmd) (r : Row), r.table ≠ Table.profiles →
        allowed u c r = true → allowed v c' r = true → u = v) := by
  refine ⟨allowed_patient_iff, allowed_record_iff, ?_⟩
  intro u v c c' r hr hu hv
  cases r with
  | profile pr => simp [Row.table] at hr
  | patient pa =>
      rw [allowed_patient_iff] at hu
      rw [allowed_patient_iff] at hv
      exact hu.trans hv.symm
  | record re =>
      rw [allowed_record_iff] at hu
      rw [allowed_record_iff] at hv
      exact hu.trans hv.symm

/-- Witness for C1 at user 1 and the sample patient row. -/
theorem c1_patient_data_isolated_by_owner_witness :
    (1 : UserId) = 1 ∧ allowed 1 Cmd.select (Row.patient samplePatient) = true :=
  ⟨c1_patient_data_isolated_by_owner.2.2 1 1 Cmd.select Cmd.update
      (Row.patient samplePatient) (by decide) (by decide) (by decide),
    (c1_patient_data_isolated_by_owner.1 1 Cmd.select samplePatient).mpr rfl⟩

/-- C2: every one of the eleven RLS policies has as its predicate the equality
between `auth.uid()` and the row's ownership column, i.e. the policy's
isolation key is the row's owner. -/
theorem c2_every_policy_keyed_on_owner :
    ∀ p ∈ policies, ∀ (u : UserId) (r : Row),
      r.table = p.table → (p.pred u r = true ↔ u = r.ownerId) := by
  intro p hp u r ht
  simp only [policies, List.mem_cons, List.not_mem_nil, or_false] at hp
  rcases hp with rfl | rfl | rfl | rfl | rfl | rfl | rfl | rfl | rfl | rfl | rfl <;>
    cases r <;> simp_all [Row.table, Row.ownerId]

/-- Witness for C2 at the first policy and the sample profile row. -/
theorem c2_every_policy_keyed_on_owner_witness :
    (1 : UserId) = Row.ownerId (Row.profile sampleProfile) :=
  (c2_every_policy_keyed_on_owner _ (List.mem_cons_self _ _) 1
    (Row.profile sampleProfile) rfl).mp rfl

/-- C3 fails as stated: the migration declares no DELETE policy on
`profiles`, so not every clinician-data table has checks for all four
command types. -/
theorem c3_counterexample_profiles_no_delete_policy :
    hasPolicy Table.profiles Cmd.delete = false := by decide

/-- C3 (amended): `patients` and `patient_records` have RLS policies for all
four command types, each keyed on the authenticated identity so that an owner
is permitted every operation on their own rows; `profiles` has SELECT, INSERT
and UPDATE policies (keyed the same way) but no DELETE policy. -/
theorem c3_amended_policy_coverage :
    (∀ c : Cmd, hasPolicy Table.patients c = true ∧
        hasPolicy Table.patientRecords c = true) ∧
    (hasPolicy Table.profiles Cmd.select = true ∧
      hasPolicy Table.profiles Cmd.insert = true ∧
      hasPolicy Table.profiles Cmd.update = true ∧
      hasPolicy Table.profiles Cmd.delete = false) ∧
    (∀ (c : Cmd) (pa : PatientRow),
        allowed pa.psychologist_id c (Row.patient pa) = true) ∧
    (∀ (c : Cmd) (re : PatientRecordRow),
        allowed re.psychologist_id c (Row.record re) = true) := by
  refine ⟨?_, by decide, ?_, ?_⟩
  · intro c
    cases c <;> exact ⟨by decide, by decide⟩
  · intro c pa
    exact (allowed_patient_iff _ _ _).mpr rfl
  · intro c re
    exact (allowed_record_iff _ _ _).mpr rfl

/-- C4: no page read query constrains rows by `psychologist_id`; once RLS is
applied every non-profile row a SELECT can return belongs to the caller, and
without the RLS gate a raw table state can expose another clinician's row —
so restriction to the caller's own rows holds iff the database enforces it. -/
theorem c4_pages_rely_on_rls_for_isolation :
    (∀ q ∈ pageReadQueries, Col.psychologist_id ∉ q.filterCols) ∧
    (∀ (uid : UserId) (rows : List Row) (r : Row),
        r ∈ selectVisible uid rows → r.table ≠ Table.profiles →
        r.ownerId = uid) ∧
    (∃ r : Row, r ∈ [Row.patient samplePatient] ∧
        r.table = Table.patients ∧ r.ownerId ≠ 2) := by
  refine ⟨by decide, ?_, Row.patient samplePatient, by simp, rfl, by decide⟩
  intro uid rows r hr hpr
  have hall := (List.mem_filter.mp hr).2
  cases r with
  | profile pr => exact absurd rfl hpr
  | patient pa => exact ((allowed_patient_iff _ _ _).mp hall).symm
  | record re => exact ((allowed_record_iff _ _ _).mp hall).symm

/-- Witness for C4: user 1's own sample row survives the RLS SELECT gate and
is attributed to user 1. -/
theorem c4_pages_rely_on_rls_for_isolation_witness :
    Row.ownerId (Row.patient samplePatient) = 1 :=
  c4_pages_rely_on_rls_for_isolation.2.1 1 [Row.patient samplePatient]
    (Row.patient samplePatient) (by decide) (by decide)

/-- C5 fails as stated: no page component issues an UPDATE or DELETE on
`patients`, so the application does not provide those two of the four CRUD
operations for patients. -/
theorem c5_counterexample_no_patient_update_or_delete :
    (appHasOp Table.patients Cmd.update || appHasOp Table.patients Cmd.delete)
      = false := by decide

/-- C5 (amended): the page components provide create (the `NewPatient` insert)
and read (the Patients list, the Dashboard, and the PatientDetail view) for
patients, and the RLS policies permit owner updates and deletes, but no page
component issues an UPDATE or DELETE on `patients`. -/
theorem c5_amended_patient_crud :
    appHasOp Table.patients Cmd.insert = true ∧
    appHasOp Table.patients Cmd.select = true ∧
    appHasOp Table.patients Cmd.update = false ∧
    appHasOp Table.patients Cmd.delete = false ∧
    hasPolicy Table.patients Cmd.update = true ∧
    hasPolicy Table.patients Cmd.delete = true := by decide

/-- C6 fails as stated: no page component issues an UPDATE or DELETE on
`patient_records`, so the application does not provide those two of the four
CRUD operations for session notes. -/
theorem c6_counterexample_no_record_update_or_delete :
    (appHasOp Table.patientRecords Cmd.update
      || appHasOp Table.patientRecords Cmd.delete) = false := by decide

/-- C6 (amended): the page components provide create (the
`PatientDetail.handleCreateRecord` insert) and read (the records query of
`fetchPatientData`) for session notes, and the RLS policies permit owner
updates and deletes, but no page component issues an UPDATE or DELETE on
`patient_records`. -/
theorem c6_amended_record_crud :
    appHasOp Table.patientRecords Cmd.insert = true ∧
    appHasOp Table.patientRecords Cmd.select = true ∧
    appHasOp Table.patientRecords Cmd.update = false ∧
    appHasOp Table.patientRecords Cmd.delete = false ∧
    hasPolicy Table.patientRecords Cmd.update = true ∧
    hasPolicy Table.patientRecords Cmd.delete = true := by decide

/-- C7: every database operation issued by a page component targets
`patients` or `patient_records`, and none targets `profiles`. -/
theorem c7_pages_query_only_two_tables :
    (appOperations.all fun op =>
        op.table == Table.patients || op.table == Table.patientRecords) = true ∧
    (appOperations.all fun op => !(op.table == Table.profiles)) = true := by
  decide

/-- The empty needle occurs in every haystack (JS `s.includes('')`). -/
theorem jsIncludes_nil_needle : ∀ l : List Char, jsIncludes [] l = true
  | [] => rfl
  | _ :: _ => by simp [jsIncludes, List.isPrefixOf]

/-- Every string contains the empty string. -/
theorem strIncludes_empty (hay : String) : strIncludes hay "" = true :=
  jsIncludes_nil_needle hay.toList

/-- The search predicate of the Patients page, spelled out as the claim
states it: the term occurs in the name or the email case-insensitively, or
in the phone verbatim. -/
theorem matchesSearch_eq_true_iff (term : String) (p : PatientRow) :
    matchesSearch term p = true ↔
      (strIncludes (lowerStr p.full_name) (lowerStr term) = true ∨
        (∃ e, p.email = some e ∧ strIncludes (lowerStr e) (lowerStr term) = true) ∨
        (∃ ph, p.phone = some ph ∧ strIncludes ph term = true)) := by
  unfold matchesSearch
  cases hpe : p.email <;> cases hph : p.phone <;>
    simp [hpe, hph, Bool.or_eq_true, or_assoc]

/-- C8: for every patient list and search term, the filtered list contains
exactly the patients whose name or email contains the term
case-insensitively or whose phone contains it verbatim, and the empty
search term leaves the list unchanged. -/
theorem c8_search_filter_exact :
    (∀ (term : String) (ps : List PatientRow) (p : PatientRow),
        p ∈ filteredPatients term ps ↔
          p ∈ ps ∧
            (strIncludes (lowerStr p.full_name) (lowerStr term) = true ∨
              (∃ e, p.email = some e ∧
                  strIncludes (lowerStr e) (lowerStr term) = true) ∨
              (∃ ph, p.phone = some ph ∧ strIncludes ph term = true))) ∧
    (∀ ps : List PatientRow, filteredPatients "" ps = ps) := by
  constructor
  · intro term ps p
    rw [filteredPatients, List.mem_filter, matchesSearch_eq_true_iff]
  · intro ps
    apply List.filter_eq_self.mpr
    intro p hp
    have h1 : strIncludes (lowerStr p.full_name) (lowerStr "") = true := by
      have : lowerStr "" = "" := rfl
      rw [this]
      exact strIncludes_empty _
    simp [matchesSearch, h1]

/-- `x || null` yields `null` exactly on the empty string. -/
theorem orNull_eq_none_iff (s : String) : orNull s = none ↔ s = "" := by
  unfold orNull
  split <;> simp_all

/-- C9: the new-patient insert is attempted iff the trimmed name is
non-empty (a blank name aborts before any database call), and an attempted
insert carries the caller's id, the trimmed name, and `none` exactly for the
optional fields whose input was the empty string. -/
theorem c9_new_patient_submit :
    ∀ (uid : UserId) (formData : PatientForm),
      (handleSubmit uid formData = none ↔ jsTrim formData.full_name = "") ∧
      (∀ row, handleSubmit uid formData = some row →
        row.psychologist_id = uid ∧
        row.full_name = jsTrim formData.full_name ∧
        row.status = formData.status ∧
        (row.email = none ↔ formData.email = "") ∧
        (row.phone = none ↔ formData.phone = "") ∧
        (row.birth_date = none ↔ formData.birth_date = "") ∧
        (row.cpf = none ↔ formData.cpf = "") ∧
        (row.address = none ↔ formData.address = "") ∧
        (row.emergency_contact = none ↔ formData.emergency_contact = "") ∧
        (row.emergency_phone = none ↔ formData.emergency_phone = "") ∧
        (row.notes = none ↔ formData.notes = "")) := by
  intro uid formData
  constructor
  · unfold handleSubmit
    split <;> simp_all
  · intro row hrow
    unfold handleSubmit at hrow
    split at hrow
    · exact absurd hrow (by simp)
    · obtain rfl := (Option.some.injEq _ _).mp hrow
      exact ⟨rfl, rfl, rfl, orNull_eq_none_iff _, orNull_eq_none_iff _,
        orNull_eq_none_iff _, orNull_eq_none_iff _, orNull_eq_none_iff _,
        orNull_eq_none_iff _, orNull_eq_none_iff _, orNull_eq_none_iff _⟩

/-- A sample filled-in new-patient form. -/
def sampleForm : PatientForm :=
  { full_name := "  Ana Souza ", email := "ana@example.com", phone := "",
    birth_date := "", cpf := "", address := "", emergency_contact := "",
    emergency_phone := "", notes := "", status := "active" }

/-- The insert payload `handleSubmit` produces for `sampleForm`. -/
def sampleFormInsert : PatientInsert :=
  { psychologist_id := 1, full_name := "Ana Souza",
    email := some "ana@example.com", phone := none, birth_date := none,
    cpf := none, address := none, emergency_contact := none,
    emergency_phone := none, notes := none, status := "active" }

/-- Witness for C9 at the sample form: the stored name is the trimmed input
and the empty phone input is stored as null. -/
theorem c9_new_patient_submit_witness :
    sampleFormInsert.full_name = jsTrim sampleForm.full_name ∧
    (sampleFormInsert.phone = none ↔ sampleForm.phone = "") :=
  have h := (c9_new_patient_submit 1 sampleForm).2 sampleFormInsert (by decide)
  ⟨h.2.1, h.2.2.2.2.1⟩

/-- C10: inserting a row into `auth.users` fires `handle_new_user`, after
which a profile with the new user's id exists whose name is the metadata
`full_name` when present and `Psicólogo(a)` otherwise; and the invariant
that every user has a profile with their id is preserved by user inserts. -/
theorem c10_signup_creates_profile :
    (∀ (db : AuthDb) (u : AuthUser),
        ∃ p ∈ (insertAuthUser u db).profiles,
          p.id = u.id ∧ p.full_name = u.meta_full_name.getD "Psicólogo(a)") ∧
    (∀ (db : AuthDb) (u : AuthUser),
        (∀ v ∈ db.users, ∃ p ∈ db.profiles, p.id = v.id) →
        ∀ v ∈ (insertAuthUser u db).users,
          ∃ p ∈ (insertAuthUser u db).profiles, p.id = v.id) := by
  constructor
  · intro db u
    exact ⟨_, List.mem_cons_self _ _, rfl, rfl⟩
  · intro db u h v hv
    simp only [insertAuthUser, handle_new_user, List.mem_cons] at hv
    rcases hv with rfl | hv
    · exact ⟨_, List.mem_cons_self _ _, rfl⟩
    · obtain ⟨p, hp, hpid⟩ := h v hv
      exact ⟨p, List.mem_cons_of_mem _ hp, hpid⟩

/-- Witness for C10: starting from the empty database, signing up user 1
with metadata name Maria yields a profile with id 1. -/
theorem c10_signup_creates_profile_witness :
    ((insertAuthUser ⟨1, some "Maria"⟩ ⟨[], []⟩).profiles.any
      fun p => p.id == 1) = true := by
  obtain ⟨p, hp, hpid⟩ :=
    c10_signup_creates_profile.2 ⟨[], []⟩ ⟨1, some "Maria"⟩
      (by intro v hv; simp at hv) ⟨1, some "Maria"⟩
      (by simp [insertAuthUser, handle_new_user])
  exact List.any_eq_true.mpr ⟨p, hp, by simp [hpid]⟩

end PsiCare
